import Mathlib

/-!
Shallow embedding of the api-client-everything-ai backend core: the text
sanitizer (`src/utils/sanitizeText.ts`), the OpenAI completion client with
retry (`src/services/openai.service.ts`), the per-sub-task response
parsers/normalizers, and the `analyze` orchestrator, together with theorems
settling the specification claims.

Modelling conventions:
* JavaScript strings are Lean `String`; all claims concern ASCII-level
  behaviour, where code-unit and code-point indexing agree.
* A JavaScript value that may be `undefined`/`null`/absent is an `Option`.
* `JSON.parse` and the network are modelled as explicit parameters (parse
  oracles `String → Except String α`, transport-outcome oracles
  `Nat → TransportOutcome`), since the code treats them as opaque
  effectful calls.
* JavaScript numbers are modelled as `ℚ`; the claims involve only exact
  decimal values.
* Thrown JavaScript exceptions are modelled as `Except String` results
  carrying the error message.
-/

namespace ApiClient

/-- The character set matched by the JavaScript regex class `\s` (which is
also exactly the set stripped by `String.prototype.trim`): ASCII whitespace
and vertical tab / form feed, NBSP, and the Unicode space and line
separators. -/
def isJsWhitespace (c : Char) : Bool :=
  c.val = 0x09 || c.val = 0x0A || c.val = 0x0B || c.val = 0x0C || c.val = 0x0D ||
  c.val = 0x20 || c.val = 0xA0 || c.val = 0x1680 ||
  (0x2000 ≤ c.val && c.val ≤ 0x200A) ||
  c.val = 0x2028 || c.val = 0x2029 || c.val = 0x202F || c.val = 0x205F ||
  c.val = 0x3000 || c.val = 0xFEFF

/-- `text.trim()` from JavaScript, on a character list. -/
def jsTrim (l : List Char) : List Char :=
  ((l.dropWhile isJsWhitespace).reverse.dropWhile isJsWhitespace).reverse

/-- `text.trim()` from JavaScript, on strings. -/
def jsTrimString (s : String) : String :=
  String.mk (jsTrim s.data)

/-- One global regex replacement of the form `replace(/X+/g, " ")`: every
maximal run of characters satisfying `p` becomes a single space.  The flag
`inRun` records whether the previous character belonged to a run. -/
def collapseRuns (p : Char → Bool) : Bool → List Char → List Char
  | _, [] => []
  | inRun, c :: cs =>
    if p c then
      if inRun then collapseRuns p true cs
      else ' ' :: collapseRuns p true cs
    else c :: collapseRuns p false cs

/-- The character class of the source regex `[^\x00-\x7F]` (non-ASCII). -/
def isNonAscii (c : Char) : Bool := 0x7F < c.val

/-- The character class of the source regex `[\u0000-\u001F\u007F]`
(ASCII control characters). -/
def isJsControl (c : Char) : Bool := c.val ≤ 0x1F || c.val = 0x7F

/-- `sanitizeText` from `src/utils/sanitizeText.ts`.  A non-string or empty
input (`!text || typeof text !== "string"`) yields `""`.  The three leading
PII regex replacements (emails → `"[email]"`, phone numbers → `"[phone]"`,
card numbers → `"[card]"`) are abstracted as the parameter `pii : String →
String`; every property proved about `sanitizeText` below is proved for an
arbitrary such rewriting, so in particular it holds for the concrete
regex-based one of the source.  The remaining pipeline is embedded exactly:
trim, collapse `\s+` runs to a single space, collapse non-ASCII runs to a
single space, delete control characters, and truncate to 6000. -/
def sanitizeText (pii : String → String) (text : Option String) : String :=
  match text with
  | none => ""
  | some s =>
    if s = "" then ""
    else
      let afterPii := pii s
      let trimmed := jsTrim afterPii.data
      let wsCollapsed := collapseRuns isJsWhitespace false trimmed
      let asciiOnly := collapseRuns isNonAscii false wsCollapsed
      let noControl := asciiOnly.filter (fun c => !(isJsControl c))
      String.mk (noControl.take 6000)

/-- `validateTextLength` from `src/utils/sanitizeText.ts` (defaults in the
source: `minLength = 10`, `maxLength = 50000`). -/
def validateTextLength (pii : String → String) (text : String)
    (minLength : Nat) (maxLength : Nat) : Bool :=
  let sanitized := sanitizeText pii (some text)
  decide (minLength ≤ sanitized.length) && decide (sanitized.length ≤ maxLength)

/-- Membership in a `take` is membership in the whole list. -/
lemma mem_of_mem_take {α : Type} {c : α} : ∀ {n : Nat} {l : List α},
    c ∈ l.take n → c ∈ l := by
  intro n l
  induction l generalizing n with
  | nil => intro h; cases n <;> simp_all
  | cons hd tl ih =>
    intro h
    cases n with
    | zero => simp [List.take] at h
    | succ m =>
      rcases List.mem_cons.mp h with h | h
      · exact h ▸ List.mem_cons_self _ _
      · exact List.mem_cons_of_mem _ (ih h)

/-- Every character emitted by `collapseRuns` is either the replacement
space or a character that does not satisfy the collapsed class. -/
lemma mem_collapseRuns {p : Char → Bool} {c : Char} :
    ∀ {b : Bool} {l : List Char}, c ∈ collapseRuns p b l →
      c = ' ' ∨ p c = false := by
  intro b l
  induction l generalizing b with
  | nil => intro h; simp [collapseRuns] at h
  | cons hd tl ih =>
    intro h
    by_cases hp : p hd
    · simp only [collapseRuns, hp, if_true] at h
      cases b with
      | true => exact ih h
      | false =>
        rcases List.mem_cons.mp h with h | h
        · exact Or.inl h
        · exact ih h
    · simp only [collapseRuns, hp, if_false, Bool.false_eq_true] at h
      rcases List.mem_cons.mp h with h | h
      · subst h; exact Or.inr (by simpa using hp)
      · exact ih h

/-- The sanitizer output never exceeds 6000 characters. -/
lemma sanitizeText_length_le (pii : String → String) (text : Option String) :
    (sanitizeText pii text).length ≤ 6000 := by
  cases text with
  | none => simp [sanitizeText, String.length]
  | some s =>
    by_cases hs : s = ""
    · simp [sanitizeText, hs, String.length]
    · simp only [sanitizeText, hs, if_false]
      simp [String.length, List.length_take]

/-- Every character of the sanitizer output is ASCII and not a control
character. -/
lemma sanitizeText_chars (pii : String → String) (text : Option String) :
    ∀ c ∈ (sanitizeText pii text).data,
      isJsControl c = false ∧ isNonAscii c = false := by
  cases text with
  | none => simp [sanitizeText]
  | some s =>
    by_cases hs : s = ""
    · simp [sanitizeText, hs]
    · simp only [sanitizeText, hs, if_false]
      intro c hc
      have hc' := mem_of_mem_take hc
      have hfil := List.mem_filter.mp hc'
      have hcontrol : isJsControl c = false := by
        simp at hfil
        exact hfil.2
      refine ⟨hcontrol, ?_⟩
      rcases mem_collapseRuns hfil.1 with h | h
      · subst h; rfl
      · exact h

/-- C9: for every input (non-string treated as empty), `sanitizeText`
returns a string of length at most 6000 containing no ASCII control
character (0x00–0x1F, 0x7F) and no non-ASCII code point; this holds for
every behaviour of the leading PII replacements. -/
theorem sanitizeText_bounded_ascii (pii : String → String) (text : Option String) :
    (sanitizeText pii text).length ≤ 6000 ∧
    ((sanitizeText pii text).data.all
      (fun c => !(isJsControl c) && !(isNonAscii c))) = true := by
  refine ⟨sanitizeText_length_le pii text, ?_⟩
  rw [List.all_eq_true]
  intro c hc
  have h := sanitizeText_chars pii text c hc
  simp [h.1, h.2]

/-- C10: whenever `maxLength ≥ 6000` (in particular for the default 50000
used by every route), `validateTextLength` accepts exactly when the
sanitized text reaches `minLength`; the upper bound can never reject,
because `sanitizeText` truncates to 6000 characters. -/
theorem validateTextLength_iff_min (pii : String → String) (text : String)
    (minLength maxLength : Nat) (h : 6000 ≤ maxLength) :
    validateTextLength pii text minLength maxLength = true ↔
      minLength ≤ (sanitizeText pii (some text)).length := by
  have hlen : (sanitizeText pii (some text)).length ≤ maxLength :=
    le_trans (sanitizeText_length_le pii (some text)) h
  simp [validateTextLength, hlen]

/-- Witness for C10 at a concrete input: `maxLength = 50000`, the default,
with the sanitized text `"hello world"` of length 11 ≥ 10. -/
theorem validateTextLength_iff_min_witness :
    (6000 ≤ 50000 ∧
      (validateTextLength id "hello world" 10 50000 = true ↔
        10 ≤ (sanitizeText id (some "hello world")).length)) ∧
    validateTextLength id "hello world" 10 50000 = true :=
  ⟨⟨by decide, validateTextLength_iff_min id "hello world" 10 50000 (by decide)⟩,
    by decide⟩

/-!
## Completion client (`callOpenAIChat` in `src/services/openai.service.ts`)

One transport attempt (`axios.post` plus content extraction in
`makeOpenAIRequest`) is driven by an oracle `Nat → TransportOutcome`
giving the outcome of each attempt index.
-/

/-- Outcome of one underlying HTTP attempt: a 2xx response whose extracted
`choices[0]?.message?.content` is `content` (absent or `""` counts as
empty), a non-2xx response carrying an HTTP status, or a failure with no
response at all (network error or timeout). -/
inductive TransportOutcome where
  | ok (content : Option String)
  | httpError (status : Nat) (message : String)
  | netError (message : String)
deriving DecidableEq

/-- A thrown JavaScript error as seen by the retry loop after the cast
`error as AxiosError`: `statusCode` is `axiosError.response?.status`. -/
structure ThrownError where
  statusCode : Option Nat
  message : String
deriving DecidableEq

/-- `makeOpenAIRequest`: performs one call and throws
`"Empty response from OpenAI API"` (a plain `Error`, hence no status) when
the transport succeeded but `!content`. -/
def makeOpenAIRequest : TransportOutcome → Except ThrownError String
  | .ok content =>
    match content with
    | none => .error ⟨none, "Empty response from OpenAI API"⟩
    | some c =>
      if c = "" then .error ⟨none, "Empty response from OpenAI API"⟩ else .ok c
  | .httpError status message => .error ⟨some status, message⟩
  | .netError message => .error ⟨none, message⟩

/-- `MAX_RETRIES` from the source. -/
def MAX_RETRIES : Nat := 3

/-- `RETRY_DELAY_MS` from the source. -/
def RETRY_DELAY_MS : Nat := 1000

/-- `isRetryableStatus` from the source. -/
def isRetryableStatus (statusCode : Option Nat) : Bool :=
  statusCode == some 429 || statusCode == some 500 ||
  statusCode == some 502 || statusCode == some 503

/-- The `RetryableError` shape built by `createRetryableError`. -/
structure RetryableError where
  name : String
  message : String
  isRetryable : Bool
  statusCode : Option Nat
deriving DecidableEq

/-- `createRetryableError` from the source
(`axiosError.message || "OpenAI API request failed"`). -/
def createRetryableError (e : ThrownError) : RetryableError :=
  { name := "OpenAIError"
    message := if e.message = "" then "OpenAI API request failed" else e.message
    isRetryable := isRetryableStatus e.statusCode
    statusCode := e.statusCode }

/-- `handleNonRetryableError` from the source; returns the message of the
error it throws (401 and 400 are mapped, everything else is rethrown
as-is). -/
def handleNonRetryableError (e : RetryableError) : String :=
  if e.statusCode == some 401 then "Invalid OpenAI API key"
  else if e.statusCode == some 400 then "Invalid request to OpenAI API"
  else e.message

/-- Observable behaviour of one `callOpenAIChat` invocation: the returned
content or thrown error message, the number of attempts actually made, and
the backoff delays awaited (in ms, in order). -/
structure CallTrace where
  result : Except String String
  attempts : Nat
  delays : List Nat

/-- The `for (let attempt = 0; attempt < MAX_RETRIES; attempt++)` loop of
`callOpenAIChat`.  `fuel` is the number of loop iterations left
(`MAX_RETRIES - attempt`); when it reaches zero the aggregate error is
thrown. -/
def callLoop (outcomes : Nat → TransportOutcome) :
    Nat → Nat → Option RetryableError → List Nat → CallTrace
  | attempt, 0, lastError, delays =>
    { result := .error ("OpenAI API call failed after " ++ toString MAX_RETRIES ++
        " attempts: " ++ ((lastError.map RetryableError.message).getD "undefined"))
      attempts := attempt
      delays := delays }
  | attempt, fuel + 1, _lastError, delays =>
    match makeOpenAIRequest (outcomes attempt) with
    | .ok content => { result := .ok content, attempts := attempt + 1, delays := delays }
    | .error thrown =>
      let lastError' := createRetryableError thrown
      if lastError'.isRetryable = false then
        { result := .error (handleNonRetryableError lastError')
          attempts := attempt + 1
          delays := delays }
      else if attempt < MAX_RETRIES - 1 then
        callLoop outcomes (attempt + 1) fuel (some lastError')
          (delays ++ [RETRY_DELAY_MS * 2 ^ attempt])
      else
        callLoop outcomes (attempt + 1) fuel (some lastError') delays

/-- `callOpenAIChat` from the source: fails fatally when the
`OPENAI_API_KEY` configuration is absent (or empty, since `!apiKey`),
otherwise runs the retry loop. -/
def callOpenAIChat (apiKey : Option String) (outcomes : Nat → TransportOutcome) :
    CallTrace :=
  match apiKey with
  | none => { result := .error "OPENAI_API_KEY is not configured", attempts := 0, delays := [] }
  | some key =>
    if key = "" then
      { result := .error "OPENAI_API_KEY is not configured", attempts := 0, delays := [] }
    else callLoop outcomes 0 MAX_RETRIES none []

lemma callLoop_zero (o : Nat → TransportOutcome) (a : Nat)
    (le : Option RetryableError) (d : List Nat) :
    callLoop o a 0 le d =
      { result := .error ("OpenAI API call failed after " ++ toString MAX_RETRIES ++
          " attempts: " ++ ((le.map RetryableError.message).getD "undefined"))
        attempts := a
        delays := d } := rfl

lemma callLoop_ok (o : Nat → TransportOutcome) (a f : Nat)
    (le : Option RetryableError) (d : List Nat) (c : String)
    (h : makeOpenAIRequest (o a) = .ok c) :
    callLoop o a (f + 1) le d = { result := .ok c, attempts := a + 1, delays := d } := by
  unfold callLoop
  rw [h]

lemma callLoop_nonretryable (o : Nat → TransportOutcome) (a f : Nat)
    (le : Option RetryableError) (d : List Nat) (te : ThrownError)
    (h : makeOpenAIRequest (o a) = .error te)
    (hr : isRetryableStatus te.statusCode = false) :
    callLoop o a (f + 1) le d =
      { result := .error (handleNonRetryableError (createRetryableError te))
        attempts := a + 1
        delays := d } := by
  unfold callLoop
  rw [h]
  simp [createRetryableError, hr]

lemma callLoop_retry_delay (o : Nat → TransportOutcome) (a f : Nat)
    (le : Option RetryableError) (d : List Nat) (te : ThrownError)
    (h : makeOpenAIRequest (o a) = .error te)
    (hr : isRetryableStatus te.statusCode = true)
    (ha : a < MAX_RETRIES - 1) :
    callLoop o a (f + 1) le d =
      callLoop o (a + 1) f (some (createRetryableError te))
        (d ++ [RETRY_DELAY_MS * 2 ^ a]) := by
  conv_lhs => unfold callLoop
  rw [h]
  simp [createRetryableError, hr, ha]

lemma callLoop_retry_last (o : Nat → TransportOutcome) (a f : Nat)
    (le : Option RetryableError) (d : List Nat) (te : ThrownError)
    (h : makeOpenAIRequest (o a) = .error te)
    (hr : isRetryableStatus te.statusCode = true)
    (ha : ¬ a < MAX_RETRIES - 1) :
    callLoop o a (f + 1) le d =
      callLoop o (a + 1) f (some (createRetryableError te)) d := by
  conv_lhs => unfold callLoop
  rw [h]
  simp [createRetryableError, hr, ha]

/-- The loop never reports fewer attempts than its starting index. -/
lemma callLoop_attempts_ge (o : Nat → TransportOutcome) :
    ∀ (f a : Nat) (le : Option RetryableError) (d : List Nat),
      a ≤ (callLoop o a f le d).attempts := by
  intro f
  induction f with
  | zero => intro a le d; rw [callLoop_zero]
  | succ f ih =>
    intro a le d
    cases h : makeOpenAIRequest (o a) with
    | ok c => rw [callLoop_ok o a f le d c h]; exact Nat.le_succ a
    | error te =>
      cases hr : isRetryableStatus te.statusCode with
      | false => rw [callLoop_nonretryable o a f le d te h hr]; exact Nat.le_succ a
      | true =>
        by_cases ha : a < MAX_RETRIES - 1
        · rw [callLoop_retry_delay o a f le d te h hr ha]
          exact Nat.le_trans (Nat.le_succ a) (ih (a + 1) _ _)
        · rw [callLoop_retry_last o a f le d te h hr ha]
          exact Nat.le_trans (Nat.le_succ a) (ih (a + 1) _ _)

/-- With fuel left, the loop makes at least one further attempt. -/
lemma callLoop_attempts_succ_ge (o : Nat → TransportOutcome)
    (f a : Nat) (le : Option RetryableError) (d : List Nat) (hf : 0 < f) :
    a + 1 ≤ (callLoop o a f le d).attempts := by
  cases f with
  | zero => exact absurd hf (by simp)
  | succ f =>
    cases h : makeOpenAIRequest (o a) with
    | ok c => rw [callLoop_ok o a f le d c h]
    | error te =>
      cases hr : isRetryableStatus te.statusCode with
      | false => rw [callLoop_nonretryable o a f le d te h hr]
      | true =>
        by_cases ha : a < MAX_RETRIES - 1
        · rw [callLoop_retry_delay o a f le d te h hr ha]
          exact callLoop_attempts_ge o f (a + 1) _ _
        · rw [callLoop_retry_last o a f le d te h hr ha]
          exact callLoop_attempts_ge o f (a + 1) _ _

/-- C1: a failed completion attempt is retried exactly when its failure
carries HTTP status 429, 500, 502 or 503; a 401 fails immediately with the
invalid-credential error, a 400 fails immediately with the invalid-request
error, and any other status or a status-less failure (network error,
timeout, or the empty-content error thrown after a successful transport
call) is not retried and propagates its own message immediately. -/
theorem callOpenAIChat_retry_classification
    (outcomes : Nat → TransportOutcome) (thrown : ThrownError)
    (h : makeOpenAIRequest (outcomes 0) = .error thrown) :
    (isRetryableStatus thrown.statusCode = true ↔
      (thrown.statusCode = some 429 ∨ thrown.statusCode = some 500 ∨
       thrown.statusCode = some 502 ∨ thrown.statusCode = some 503)) ∧
    (1 < (callOpenAIChat (some "test-key") outcomes).attempts ↔
      isRetryableStatus thrown.statusCode = true) ∧
    (thrown.statusCode = some 401 →
      callOpenAIChat (some "test-key") outcomes =
        { result := .error "Invalid OpenAI API key", attempts := 1, delays := [] }) ∧
    (thrown.statusCode = some 400 →
      callOpenAIChat (some "test-key") outcomes =
        { result := .error "Invalid request to OpenAI API", attempts := 1, delays := [] }) ∧
    (isRetryableStatus thrown.statusCode = false →
      callOpenAIChat (some "test-key") outcomes =
        { result := .error (handleNonRetryableError (createRetryableError thrown))
          attempts := 1
          delays := [] }) := by
  have hc : callOpenAIChat (some "test-key") outcomes =
      callLoop outcomes 0 MAX_RETRIES none [] := rfl
  refine ⟨?_, ?_, ?_, ?_, ?_⟩
  · simp only [isRetryableStatus, Bool.or_eq_true, beq_iff_eq]
    tauto
  · constructor
    · intro h1
      by_contra hr
      have hr' : isRetryableStatus thrown.statusCode = false := by
        simpa using hr
      rw [hc, show MAX_RETRIES = 2 + 1 from rfl,
        callLoop_nonretryable outcomes 0 2 none [] thrown h hr'] at h1
      exact absurd h1 (by simp)
    · intro hr
      rw [hc, show MAX_RETRIES = 2 + 1 from rfl,
        callLoop_retry_delay outcomes 0 2 none [] thrown h hr (by decide)]
      exact callLoop_attempts_succ_ge outcomes 2 1 _ _ (by decide)
  · intro hsc
    have hr : isRetryableStatus thrown.statusCode = false := by
      rw [hsc]; rfl
    rw [hc, show MAX_RETRIES = 2 + 1 from rfl,
      callLoop_nonretryable outcomes 0 2 none [] thrown h hr]
    simp [handleNonRetryableError, createRetryableError, hsc]
  · intro hsc
    have hr : isRetryableStatus thrown.statusCode = false := by
      rw [hsc]; rfl
    rw [hc, show MAX_RETRIES = 2 + 1 from rfl,
      callLoop_nonretryable outcomes 0 2 none [] thrown h hr]
    simp [handleNonRetryableError, createRetryableError, hsc]
  · intro hr
    rw [hc, show MAX_RETRIES = 2 + 1 from rfl,
      callLoop_nonretryable outcomes 0 2 none [] thrown h hr]

/-- A client that always receives HTTP 401. -/
def alwaysStatus401 : Nat → TransportOutcome :=
  fun _ => .httpError 401 "Request failed with status code 401"

/-- Witness for C1: a simulated 401 on the first attempt fails immediately
(one attempt, no delays) with the invalid-credential message. -/
theorem callOpenAIChat_retry_classification_witness :
    (isRetryableStatus (some 401) = true ↔
      ((some 401 : Option Nat) = some 429 ∨ (some 401 : Option Nat) = some 500 ∨
       (some 401 : Option Nat) = some 502 ∨ (some 401 : Option Nat) = some 503)) ∧
    (1 < (callOpenAIChat (some "test-key") alwaysStatus401).attempts ↔
      isRetryableStatus (some 401) = true) ∧
    callOpenAIChat (some "test-key") alwaysStatus401 =
      { result := .error "Invalid OpenAI API key", attempts := 1, delays := [] } := by
  have h := callOpenAIChat_retry_classification alwaysStatus401
    ⟨some 401, "Request failed with status code 401"⟩ rfl
  exact ⟨h.1, h.2.1, h.2.2.1 rfl⟩

/-- C2: when all three attempts fail with retryable statuses, the client
makes exactly `MAX_RETRIES = 3` attempts, waits `1000·2⁰ = 1000` ms after
attempt 0 and `1000·2¹ = 2000` ms after attempt 1 (and nothing after the
final attempt), and then fails with the aggregate message naming the
attempt count and the last error's message. -/
theorem callOpenAIChat_exhausts_retries
    (outcomes : Nat → TransportOutcome) (t0 t1 t2 : ThrownError)
    (h0 : makeOpenAIRequest (outcomes 0) = .error t0)
    (r0 : isRetryableStatus t0.statusCode = true)
    (h1 : makeOpenAIRequest (outcomes 1) = .error t1)
    (r1 : isRetryableStatus t1.statusCode = true)
    (h2 : makeOpenAIRequest (outcomes 2) = .error t2)
    (r2 : isRetryableStatus t2.statusCode = true) :
    callOpenAIChat (some "test-key") outcomes =
      { result := .error ("OpenAI API call failed after 3 attempts: " ++
          (createRetryableError t2).message)
        attempts := 3
        delays := [1000, 2000] } := by
  have step0 := callLoop_retry_delay outcomes 0 2 none [] t0 h0 r0 (by decide)
  have step1 := callLoop_retry_delay outcomes 1 1 (some (createRetryableError t0))
    ([] ++ [RETRY_DELAY_MS * 2 ^ 0]) t1 h1 r1 (by decide)
  have step2 := callLoop_retry_last outcomes 2 0 (some (createRetryableError t1))
    (([] ++ [RETRY_DELAY_MS * 2 ^ 0]) ++ [RETRY_DELAY_MS * 2 ^ 1]) t2 h2 r2 (by decide)
  have hc : callOpenAIChat (some "test-key") outcomes =
      callLoop outcomes 0 MAX_RETRIES none [] := rfl
  rw [hc, show MAX_RETRIES = 2 + 1 from rfl, step0, step1, step2, callLoop_zero]
  exact rfl

/-- A client that always receives HTTP 429. -/
def alwaysStatus429 : Nat → TransportOutcome :=
  fun _ => .httpError 429 "Request failed with status code 429"

/-- Witness for C2: three simulated 429s exhaust the retry budget with
delays 1000 ms and 2000 ms and the aggregate error message. -/
theorem callOpenAIChat_exhausts_retries_witness :
    callOpenAIChat (some "test-key") alwaysStatus429 =
      { result := .error ("OpenAI API call failed after 3 attempts: " ++
          "Request failed with status code 429")
        attempts := 3
        delays := [1000, 2000] } :=
  callOpenAIChat_exhausts_retries alwaysStatus429
    ⟨some 429, "Request failed with status code 429"⟩
    ⟨some 429, "Request failed with status code 429"⟩
    ⟨some 429, "Request failed with status code 429"⟩
    rfl rfl rfl rfl rfl rfl

/-!
## Response parsers / normalizers (`src/services/openai.service.ts`)

Each parsed model response is a JavaScript object whose fields may be
absent (`Option`).  `JSON.parse` is modelled by a parse oracle
`String → Except String α` (`.error` = the parse threw); the oracle is
applied to `response.trim()` exactly as in the source.
-/

/-- The JSON object shape of a structured job description
(`StructuredJD` in `src/types/index.ts`), with every field possibly
absent as it comes back from the model. -/
structure StructuredJDObj where
  title : Option String
  company : Option String
  location : Option String
  employmentType : Option String
  experienceLevel : Option String
  educationRequirements : Option (List String)
  domain : Option String
  responsibilities : Option (List String)
  mustHaveSkills : Option (List String)
  niceToHaveSkills : Option (List String)
  technologies : Option (List String)
  summary : Option String
deriving DecidableEq

/-- The field-by-field defaulting (`jdData.title || ""`,
`jdData.educationRequirements || []`, …) performed by `preProcessJD` on a
successfully parsed response. -/
def normalizeStructuredJD (jdData : StructuredJDObj) : StructuredJDObj :=
  { title := some (jdData.title.getD "")
    company := some (jdData.company.getD "")
    location := some (jdData.location.getD "")
    employmentType := some (jdData.employmentType.getD "")
    experienceLevel := some (jdData.experienceLevel.getD "")
    educationRequirements := some (jdData.educationRequirements.getD [])
    domain := some (jdData.domain.getD "")
    responsibilities := some (jdData.responsibilities.getD [])
    mustHaveSkills := some (jdData.mustHaveSkills.getD [])
    niceToHaveSkills := some (jdData.niceToHaveSkills.getD [])
    technologies := some (jdData.technologies.getD [])
    summary := some (jdData.summary.getD "") }

/-- `preProcessJD`: the completion call result and the `JSON.parse`
behaviour are parameters; the JD text itself only feeds the prompt and is
not otherwise used.  Both a failed completion call and a parse failure
propagate, wrapped in `"Failed to preprocess job description: "`. -/
def preProcessJD (chat : Except String String)
    (parse : String → Except String StructuredJDObj) :
    Except String StructuredJDObj :=
  match chat with
  | .error e => .error ("Failed to preprocess job description: " ++ e)
  | .ok response =>
    match parse (jsTrimString response) with
    | .error e => .error ("Failed to preprocess job description: " ++ e)
    | .ok jdData => .ok (normalizeStructuredJD jdData)

/-- An education entry of a structured resume. -/
structure ResumeEducationEntry where
  institution : Option String
  degree : Option String
  field : Option String
  startDate : Option String
  endDate : Option String
deriving DecidableEq

/-- An inferred-experience entry of a structured resume. -/
structure InferredExperienceEntry where
  bullets : Option (List String)
  technologies : Option (List String)
deriving DecidableEq

/-- An experience entry of a structured resume. -/
structure ResumeExperienceEntry where
  company : Option String
  title : Option String
  location : Option String
  startDate : Option String
  endDate : Option String
  bullets : Option (List String)
  technologies : Option (List String)
deriving DecidableEq

/-- A project entry of a structured resume. -/
structure ResumeProjectEntry where
  name : Option String
  description : Option String
  technologies : Option (List String)
  bullets : Option (List String)
deriving DecidableEq

/-- The JSON object shape of a structured resume (`StructuredResume` in
`src/types/index.ts`), with every field possibly absent. -/
structure StructuredResumeObj where
  name : Option String
  email : Option String
  phone : Option String
  location : Option String
  summary : Option String
  skills : Option (List String)
  education : Option (List ResumeEducationEntry)
  inferredExperience : Option (List InferredExperienceEntry)
  experience : Option (List ResumeExperienceEntry)
  projects : Option (List ResumeProjectEntry)
  certifications : Option (List String)
deriving DecidableEq

/-- The fallback structure `preprocessResume` returns when `JSON.parse`
fails: every field of the source's object literal (which does not include
`inferredExperience`) is empty except `summary`, which is the first 1000
characters of the sanitized input. -/
def fallbackResume (sanitizedResume : String) : StructuredResumeObj :=
  { name := some ""
    email := some ""
    phone := some ""
    location := some ""
    summary := some (sanitizedResume.take 1000)
    skills := some []
    education := some []
    inferredExperience := none
    experience := some []
    projects := some []
    certifications := some [] }

/-- `preprocessResume`: computes `sanitizeText(resumeText.substring(0,
6000))`, then returns the parsed response object **as-is** on parse
success, the fallback structure on parse failure, and a wrapped error only
when the completion call itself failed. -/
def preprocessResume (pii : String → String) (resumeText : String)
    (chat : Except String String)
    (parse : String → Except String StructuredResumeObj) :
    Except String StructuredResumeObj :=
  let sanitizedResume := sanitizeText pii (some (resumeText.take 6000))
  match chat with
  | .error e => .error ("Failed to preprocess resume: " ++ e)
  | .ok response =>
    match parse (jsTrimString response) with
    | .ok structuredResume => .ok structuredResume
    | .error _ => .ok (fallbackResume sanitizedResume)

/-- The nested `company` object of a parsed job-metadata response. -/
structure MetadataCompanyObj where
  name : Option String
  logo : Option String
  linkedinUrl : Option String
deriving DecidableEq

/-- The nested `job` object of a parsed job-metadata response. -/
structure MetadataJobObj where
  title : Option String
  location : Option String
  employmentType : Option String
  applyUrl : Option String
  posted : Option String
  applicants : Option String
  promotedBy : Option String
  responsesManaged : Option String
deriving DecidableEq

/-- `ParsedJobMetadata`: the nested object returned by the model; either
nested object may itself be absent (in which case the source's property
accesses throw a `TypeError`, caught by the surrounding handler). -/
structure ParsedJobMetadataObj where
  company : Option MetadataCompanyObj
  job : Option MetadataJobObj
deriving DecidableEq

/-- `JobMetaDataResponse` from `src/types/index.ts`, as flattened by
`parseJobMetadata`; `additionalInfo` (`{}` in the source) is an empty
string-keyed mapping. -/
structure JobMetaDataResponse where
  companyLinkedInUrl : String
  companyLogoUrl : String
  companyName : String
  jobTitle : String
  location : String
  salary : String
  postedDate : String
  applicationDeadline : String
  jobType : String
  remote : String
  benefits : List String
  additionalInfo : List (String × String)
deriving DecidableEq

/-- The all-empty metadata object returned by `parseJobMetadata` on any
failure. -/
def emptyJobMetadata : JobMetaDataResponse :=
  { companyLinkedInUrl := ""
    companyLogoUrl := ""
    companyName := ""
    jobTitle := ""
    location := ""
    salary := ""
    postedDate := ""
    applicationDeadline := ""
    jobType := ""
    remote := ""
    benefits := []
    additionalInfo := [] }

/-- `parseJobMetadata`: never fails — a failed completion call, an
unparsable response, or a missing nested `company`/`job` object (whose
property access throws) is caught and turned into the all-empty metadata
response. -/
def parseJobMetadata (chat : Except String String)
    (parse : String → Except String ParsedJobMetadataObj) :
    JobMetaDataResponse :=
  match chat with
  | .error _ => emptyJobMetadata
  | .ok response =>
    match parse (jsTrimString response) with
    | .error _ => emptyJobMetadata
    | .ok parsed =>
      match parsed.company, parsed.job with
      | some company, some job =>
        { companyLinkedInUrl := company.linkedinUrl.getD ""
          companyLogoUrl := company.logo.getD ""
          companyName := company.name.getD ""
          jobTitle := job.title.getD ""
          location := job.location.getD ""
          salary := ""
          postedDate := job.posted.getD ""
          applicationDeadline := ""
          jobType := job.employmentType.getD ""
          remote := ""
          benefits := []
          additionalInfo := [] }
      | _, _ => emptyJobMetadata

/-- The JSON object shape of a match-analysis response
(`BaseAnalysisResult` in the source), with every field possibly absent. -/
structure BaseAnalysisObj where
  matchScore : Option ℚ
  matchedSkills : Option (List String)
  missingSkills : Option (List String)
  suggestions : Option (List String)
  sampleBullets : Option (List String)
  summary : Option String
deriving DecidableEq

/-- `Math.min(100, Math.max(0, result.matchScore || 0))` from `callOpenAI`
(an absent score is defaulted to 0 by `|| 0`). -/
def clampScore (matchScore : Option ℚ) : ℚ :=
  min 100 (max 0 (matchScore.getD 0))

/-- The field-by-field normalization performed by `callOpenAI` on a
successfully parsed match-analysis response. -/
def normalizeBaseAnalysis (result : BaseAnalysisObj) : BaseAnalysisObj :=
  { matchScore := some (clampScore result.matchScore)
    matchedSkills := some (result.matchedSkills.getD [])
    missingSkills := some (result.missingSkills.getD [])
    suggestions := some (result.suggestions.getD [])
    sampleBullets := some (result.sampleBullets.getD [])
    summary := some (result.summary.getD "") }

/-- `callOpenAI` (the match-analysis sub-task): the raw JD text and the
serialized structured JD/resume only feed the prompt; a failed completion
call or parse failure propagates wrapped in
`"Failed to analyze job description and resume: "`. -/
def callOpenAI (chat : Except String String)
    (parse : String → Except String BaseAnalysisObj) :
    Except String BaseAnalysisObj :=
  match chat with
  | .error e => .error ("Failed to analyze job description and resume: " ++ e)
  | .ok response =>
    match parse (jsTrimString response) with
    | .error e => .error ("Failed to analyze job description and resume: " ++ e)
    | .ok result => .ok (normalizeBaseAnalysis result)

/-- A tailored-experience entry. -/
structure TailoredExperienceEntry where
  role : Option String
  company : Option String
  bullets : Option (List String)
deriving DecidableEq

/-- A tailored-project entry. -/
structure TailoredProjectEntry where
  name : Option String
  description : Option String
  bullets : Option (List String)
deriving DecidableEq

/-- The JSON object shape of a tailored resume (`TailoredResume` in
`src/types/index.ts`), with every field possibly absent. -/
structure TailoredResumeObj where
  tailoredSummary : Option String
  tailoredSkills : Option (List String)
  tailoredExperience : Option (List TailoredExperienceEntry)
  tailoredProjects : Option (List TailoredProjectEntry)
  coverLetterHighlights : Option (List String)
deriving DecidableEq

/-- The field-by-field defaulting performed by `generateTailoredResume` on
a successfully parsed response. -/
def normalizeTailoredResume (result : TailoredResumeObj) : TailoredResumeObj :=
  { tailoredSummary := some (result.tailoredSummary.getD "")
    tailoredSkills := some (result.tailoredSkills.getD [])
    tailoredExperience := some (result.tailoredExperience.getD [])
    tailoredProjects := some (result.tailoredProjects.getD [])
    coverLetterHighlights := some (result.coverLetterHighlights.getD []) }

/-- `generateTailoredResume`: a failed completion call or parse failure
propagates wrapped in `"Failed to generate tailored resume: "`. -/
def generateTailoredResume (chat : Except String String)
    (parse : String → Except String TailoredResumeObj) :
    Except String TailoredResumeObj :=
  match chat with
  | .error e => .error ("Failed to generate tailored resume: " ++ e)
  | .ok response =>
    match parse (jsTrimString response) with
    | .error e => .error ("Failed to generate tailored resume: " ++ e)
    | .ok result => .ok (normalizeTailoredResume result)

/-- C3 counterexample: the claim says the normalized `matchScore` is always
integer-valued, but `callOpenAI` only clamps and never rounds — the
fractional model value 55.5 (= 111/2) is returned unchanged, a
non-integral rational (denominator 2). -/
theorem clampScore_fractional_counterexample :
    clampScore (some (111 / 2)) = 111 / 2 ∧
    (clampScore (some (111 / 2))).den = 2 ∧
    (normalizeBaseAnalysis
      { matchScore := some (111 / 2), matchedSkills := none,
        missingSkills := none, suggestions := none, sampleBullets := none,
        summary := none }).matchScore = some (111 / 2) := by
  have h1 : clampScore (some (111 / 2 : ℚ)) = 111 / 2 := by
    unfold clampScore
    norm_num
  refine ⟨h1, ?_, ?_⟩
  · rw [h1]
    norm_num
  · simp only [normalizeBaseAnalysis]
    rw [h1]

/-- C3 (amended): for every model `matchScore` (absent, negative, > 100 or
fractional), the normalized score lies within [0, 100], with 150 clamped
to 100, −10 clamped to 0 and an absent score defaulted to 0; fractional
values are clamped but not rounded. -/
theorem clampScore_within_bounds (v : Option ℚ) (r : BaseAnalysisObj) :
    0 ≤ clampScore v ∧ clampScore v ≤ 100 ∧
    clampScore (some 150) = 100 ∧ clampScore (some (-10)) = 0 ∧
    clampScore none = 0 ∧
    (normalizeBaseAnalysis r).matchScore = some (clampScore r.matchScore) := by
  refine ⟨?_, ?_, by norm_num [clampScore], by norm_num [clampScore],
    by norm_num [clampScore], rfl⟩
  · exact le_min (by norm_num) (le_max_left 0 _)
  · exact min_le_left 100 _

/-- A resume-response object in which every field is absent — what
`JSON.parse` produces from the model response `"{}"`. -/
def resumeObjAllAbsent : StructuredResumeObj :=
  { name := none, email := none, phone := none, location := none,
    summary := none, skills := none, education := none,
    inferredExperience := none, experience := none, projects := none,
    certifications := none }

/-- C4 counterexample: the resume parser's success path returns the parsed
object as-is, so for the model response `"{}"` every list-typed field
(e.g. `skills`, `education`) is absent in the returned value — not an
empty sequence. -/
theorem preprocessResume_returns_as_is_counterexample :
    preprocessResume id "resume text" (.ok "\x7b\x7d")
        (fun _ => .ok resumeObjAllAbsent) = .ok resumeObjAllAbsent ∧
    resumeObjAllAbsent.skills = none ∧
    resumeObjAllAbsent.education = none ∧
    resumeObjAllAbsent.certifications = none :=
  ⟨rfl, rfl, rfl, rfl⟩

lemma parseJobMetadata_benefits (chat : Except String String)
    (parse : String → Except String ParsedJobMetadataObj) :
    (parseJobMetadata chat parse).benefits = [] := by
  unfold parseJobMetadata
  repeat' split
  all_goals rfl

/-- C4 (amended): every list-typed field is non-null (absent → empty
sequence) in the values returned by the structured-JD normalizer, the
job-metadata response, the match-analysis normalizer, the tailored-resume
normalizer and the resume-parse-failure fallback; the resume parser's
success path, however, returns the parsed object as-is, so a list field
absent from the model's JSON stays absent there. -/
theorem normalizers_default_list_fields (j : StructuredJDObj)
    (b : BaseAnalysisObj) (t : TailoredResumeObj)
    (chat : Except String String)
    (parse : String → Except String ParsedJobMetadataObj) (s : String) :
    ((normalizeStructuredJD j).educationRequirements =
        some (j.educationRequirements.getD []) ∧
      (normalizeStructuredJD j).responsibilities =
        some (j.responsibilities.getD []) ∧
      (normalizeStructuredJD j).mustHaveSkills =
        some (j.mustHaveSkills.getD []) ∧
      (normalizeStructuredJD j).niceToHaveSkills =
        some (j.niceToHaveSkills.getD []) ∧
      (normalizeStructuredJD j).technologies =
        some (j.technologies.getD [])) ∧
    (parseJobMetadata chat parse).benefits = [] ∧
    ((normalizeBaseAnalysis b).matchedSkills = some (b.matchedSkills.getD []) ∧
      (normalizeBaseAnalysis b).missingSkills = some (b.missingSkills.getD []) ∧
      (normalizeBaseAnalysis b).suggestions = some (b.suggestions.getD []) ∧
      (normalizeBaseAnalysis b).sampleBullets = some (b.sampleBullets.getD [])) ∧
    ((normalizeTailoredResume t).tailoredSkills =
        some (t.tailoredSkills.getD []) ∧
      (normalizeTailoredResume t).tailoredExperience =
        some (t.tailoredExperience.getD []) ∧
      (normalizeTailoredResume t).tailoredProjects =
        some (t.tailoredProjects.getD []) ∧
      (normalizeTailoredResume t).coverLetterHighlights =
        some (t.coverLetterHighlights.getD [])) ∧
    ((fallbackResume s).skills = some [] ∧
      (fallbackResume s).education = some [] ∧
      (fallbackResume s).experience = some [] ∧
      (fallbackResume s).projects = some [] ∧
      (fallbackResume s).certifications = some []) :=
  ⟨⟨rfl, rfl, rfl, rfl, rfl⟩, parseJobMetadata_benefits chat parse,
    ⟨rfl, rfl, rfl, rfl⟩, ⟨rfl, rfl, rfl, rfl⟩, ⟨rfl, rfl, rfl, rfl, rfl⟩⟩

/-- C5: when the model response is not parseable as JSON, `preprocessResume`
does not raise — it returns the degraded structure whose every field is
empty (and whose optional `inferredExperience` is absent) except `summary`,
which is the first 1000 characters of the sanitized input text. -/
theorem preprocessResume_degrades_on_parse_failure (pii : String → String)
    (resumeText response msg : String)
    (parse : String → Except String StructuredResumeObj)
    (h : parse (jsTrimString response) = .error msg) :
    preprocessResume pii resumeText (.ok response) parse =
      .ok (fallbackResume (sanitizeText pii (some (resumeText.take 6000)))) ∧
    (fallbackResume (sanitizeText pii (some (resumeText.take 6000)))).summary =
      some ((sanitizeText pii (some (resumeText.take 6000))).take 1000) ∧
    (fallbackResume (sanitizeText pii (some (resumeText.take 6000)))).name = some "" ∧
    (fallbackResume (sanitizeText pii (some (resumeText.take 6000)))).email = some "" ∧
    (fallbackResume (sanitizeText pii (some (resumeText.take 6000)))).phone = some "" ∧
    (fallbackResume (sanitizeText pii (some (resumeText.take 6000)))).location = some "" ∧
    (fallbackResume (sanitizeText pii (some (resumeText.take 6000)))).skills = some [] ∧
    (fallbackResume (sanitizeText pii (some (resumeText.take 6000)))).education = some [] ∧
    (fallbackResume (sanitizeText pii (some (resumeText.take 6000)))).experience = some [] ∧
    (fallbackResume (sanitizeText pii (some (resumeText.take 6000)))).projects = some [] ∧
    (fallbackResume (sanitizeText pii (some (resumeText.take 6000)))).certifications = some [] ∧
    (fallbackResume (sanitizeText pii (some (resumeText.take 6000)))).inferredExperience = none := by
  refine ⟨?_, rfl, rfl, rfl, rfl, rfl, rfl, rfl, rfl, rfl, rfl, rfl⟩
  have hstep : preprocessResume pii resumeText (.ok response) parse =
      match parse (jsTrimString response) with
      | .ok structuredResume => .ok structuredResume
      | .error _ =>
        .ok (fallbackResume (sanitizeText pii (some (resumeText.take 6000)))) := rfl
  rw [hstep, h]

/-- Witness for C5 at a concrete input: a parse oracle that always fails
(the model answered prose instead of JSON). -/
theorem preprocessResume_degrades_on_parse_failure_witness :
    preprocessResume id "John Doe, software engineer, ten years of React"
        (.ok "Sorry, I cannot answer that.")
        (fun _ => .error "Unexpected token S in JSON at position 0") =
      .ok (fallbackResume (sanitizeText id
        (some ("John Doe, software engineer, ten years of React".take 6000)))) ∧
    (fallbackResume (sanitizeText id
        (some ("John Doe, software engineer, ten years of React".take 6000)))).summary =
      some ((sanitizeText id
        (some ("John Doe, software engineer, ten years of React".take 6000))).take 1000) := by
  have h := preprocessResume_degrades_on_parse_failure id
    "John Doe, software engineer, ten years of React"
    "Sorry, I cannot answer that."
    "Unexpected token S in JSON at position 0"
    (fun _ => .error "Unexpected token S in JSON at position 0") rfl
  exact ⟨h.1, h.2.1⟩

/-!
## Orchestrator (`analyze` in `src/services/openai.service.ts`)

The sub-tasks' completion-call results and parse behaviours are collected
in an environment record.  The source's single `analyze` function is split
into one helper per statement group, mirroring its control flow: JD
extraction (mandatory), optional metadata parsing, match analysis
(mandatory), result assembly with a placeholder tailored resume, and the
best-effort tailoring step.
-/

/-- Per-sub-task completion-call results and `JSON.parse` behaviours for
one `analyze` invocation. -/
structure AnalyzeEnv where
  jdChat : Except String String
  jdParse : String → Except String StructuredJDObj
  metaChat : Except String String
  metaParse : String → Except String ParsedJobMetadataObj
  matchChat : Except String String
  matchParse : String → Except String BaseAnalysisObj
  tailorChat : Except String String
  tailorParse : String → Except String TailoredResumeObj

/-- The `AnalyzeResponse` assembled by `analyze`: the spread match-analysis
fields, the structured JD, the tailored resume, and the optional
`jobMetadata`. -/
structure AnalyzeResponse where
  matchScore : Option ℚ
  matchedSkills : Option (List String)
  missingSkills : Option (List String)
  suggestions : Option (List String)
  sampleBullets : Option (List String)
  summary : Option String
  structuredJD : StructuredJDObj
  tailoredResume : TailoredResumeObj
  jobMetadata : Option JobMetaDataResponse
deriving DecidableEq

/-- The placeholder tailored resume placed into the result before the
tailoring step runs. -/
def emptyTailoredResume : TailoredResumeObj :=
  { tailoredSummary := some ""
    tailoredSkills := some []
    tailoredExperience := some []
    tailoredProjects := some []
    coverLetterHighlights := some [] }

/-- The metadata step of `analyze`: runs only when a metadata source is
supplied and non-blank (`metadataHtmlString && metadataHtmlString.trim()
.length > 0`).  Note that `parseJobMetadata` itself never fails, so the
source's surrounding `try/catch` can never leave `parsedMetadata`
undefined once the step runs. -/
def analyzeParsedMetadata (env : AnalyzeEnv) (metadataHtmlString : Option String) :
    Option JobMetaDataResponse :=
  match metadataHtmlString with
  | some s =>
    if 0 < (jsTrimString s).length then
      some (parseJobMetadata env.metaChat env.metaParse)
    else none
  | none => none

/-- The `analysisResult` object literal of `analyze`
(`{ ...baseAnalysis, structuredJD, tailoredResume: <empty>, jobMetadata:
parsedMetadata }`). -/
def assembleAnalysis (env : AnalyzeEnv) (metadataHtmlString : Option String)
    (structuredJD : StructuredJDObj) (baseAnalysis : BaseAnalysisObj) :
    AnalyzeResponse :=
  { matchScore := baseAnalysis.matchScore
    matchedSkills := baseAnalysis.matchedSkills
    missingSkills := baseAnalysis.missingSkills
    suggestions := baseAnalysis.suggestions
    sampleBullets := baseAnalysis.sampleBullets
    summary := baseAnalysis.summary
    structuredJD := structuredJD
    tailoredResume := emptyTailoredResume
    jobMetadata := analyzeParsedMetadata env metadataHtmlString }

/-- The best-effort tailoring step of `analyze`: on success the tailored
resume replaces the placeholder, on failure the assembled result is
returned unchanged (the failure is only logged). -/
def analyzeAssemble (env : AnalyzeEnv) (analysisResult : AnalyzeResponse) :
    Except String AnalyzeResponse :=
  match generateTailoredResume env.tailorChat env.tailorParse with
  | .ok tailoredResume => .ok { analysisResult with tailoredResume := tailoredResume }
  | .error _ => .ok analysisResult

/-- The mandatory match-analysis step of `analyze` and everything after
it; a match-analysis failure is re-wrapped by the orchestrator's own
catch. -/
def analyzeAfterJD (env : AnalyzeEnv) (metadataHtmlString : Option String)
    (structuredJD : StructuredJDObj) : Except String AnalyzeResponse :=
  match callOpenAI env.matchChat env.matchParse with
  | .error e => .error ("Failed to analyze job description and resume: " ++ e)
  | .ok baseAnalysis =>
    analyzeAssemble env (assembleAnalysis env metadataHtmlString structuredJD baseAnalysis)

/-- `analyze`: the mandatory JD-extraction step, then the rest; a JD
failure is re-wrapped by the orchestrator's own catch. -/
def analyze (env : AnalyzeEnv) (metadataHtmlString : Option String) :
    Except String AnalyzeResponse :=
  match preProcessJD env.jdChat env.jdParse with
  | .error e => .error ("Failed to analyze job description and resume: " ++ e)
  | .ok structuredJD => analyzeAfterJD env metadataHtmlString structuredJD

lemma analyze_jd_error (env : AnalyzeEnv) (meta : Option String) (e : String)
    (h : preProcessJD env.jdChat env.jdParse = .error e) :
    analyze env meta = .error ("Failed to analyze job description and resume: " ++ e) := by
  unfold analyze
  rw [h]

lemma analyze_jd_ok (env : AnalyzeEnv) (meta : Option String) (j : StructuredJDObj)
    (h : preProcessJD env.jdChat env.jdParse = .ok j) :
    analyze env meta = analyzeAfterJD env meta j := by
  unfold analyze
  rw [h]

lemma analyzeAfterJD_match_error (env : AnalyzeEnv) (meta : Option String)
    (j : StructuredJDObj) (e : String)
    (h : callOpenAI env.matchChat env.matchParse = .error e) :
    analyzeAfterJD env meta j =
      .error ("Failed to analyze job description and resume: " ++ e) := by
  unfold analyzeAfterJD
  rw [h]

lemma analyzeAfterJD_match_ok (env : AnalyzeEnv) (meta : Option String)
    (j : StructuredJDObj) (b : BaseAnalysisObj)
    (h : callOpenAI env.matchChat env.matchParse = .ok b) :
    analyzeAfterJD env meta j = analyzeAssemble env (assembleAnalysis env meta j b) := by
  unfold analyzeAfterJD
  rw [h]

lemma analyzeAssemble_tailor_error (env : AnalyzeEnv) (r : AnalyzeResponse) (e : String)
    (h : generateTailoredResume env.tailorChat env.tailorParse = .error e) :
    analyzeAssemble env r = .ok r := by
  unfold analyzeAssemble
  rw [h]

lemma analyzeAssemble_tailor_ok (env : AnalyzeEnv) (r : AnalyzeResponse)
    (t : TailoredResumeObj)
    (h : generateTailoredResume env.tailorChat env.tailorParse = .ok t) :
    analyzeAssemble env r = .ok { r with tailoredResume := t } := by
  unfold analyzeAssemble
  rw [h]

lemma analyzeParsedMetadata_meta_error (env : AnalyzeEnv) (html m : String)
    (hhtml : 0 < (jsTrimString html).length)
    (hmeta : env.metaChat = .error m) :
    analyzeParsedMetadata env (some html) = some emptyJobMetadata := by
  show (if 0 < (jsTrimString html).length then
      some (parseJobMetadata env.metaChat env.metaParse)
    else none) = some emptyJobMetadata
  rw [if_pos hhtml, hmeta]
  rfl

/-- C6: in `analyze`, a JD-extraction failure or a match-analysis failure
aborts the whole operation with a wrapped error, while a tailoring failure
does not abort: the result still carries the match-analysis fields and the
all-empty placeholder `tailoredResume`. -/
theorem analyze_mandatory_vs_best_effort (env : AnalyzeEnv) (meta : Option String) :
    (∀ e, preProcessJD env.jdChat env.jdParse = .error e →
      analyze env meta = .error ("Failed to analyze job description and resume: " ++ e)) ∧
    (∀ j e, preProcessJD env.jdChat env.jdParse = .ok j →
      callOpenAI env.matchChat env.matchParse = .error e →
      analyze env meta = .error ("Failed to analyze job description and resume: " ++ e)) ∧
    (∀ j b e, preProcessJD env.jdChat env.jdParse = .ok j →
      callOpenAI env.matchChat env.matchParse = .ok b →
      generateTailoredResume env.tailorChat env.tailorParse = .error e →
      analyze env meta = .ok
        { matchScore := b.matchScore
          matchedSkills := b.matchedSkills
          missingSkills := b.missingSkills
          suggestions := b.suggestions
          sampleBullets := b.sampleBullets
          summary := b.summary
          structuredJD := j
          tailoredResume := emptyTailoredResume
          jobMetadata := analyzeParsedMetadata env meta }) := by
  refine ⟨?_, ?_, ?_⟩
  · intro e h
    exact analyze_jd_error env meta e h
  · intro j e hjd hmatch
    rw [analyze_jd_ok env meta j hjd]
    exact analyzeAfterJD_match_error env meta j e hmatch
  · intro j b e hjd hmatch htail
    rw [analyze_jd_ok env meta j hjd, analyzeAfterJD_match_ok env meta j b hmatch,
      analyzeAssemble_tailor_error env (assembleAnalysis env meta j b) e htail]
    rfl

/-- Sample structured-JD object, as parsed from a model response. -/
def jdRawSample : StructuredJDObj :=
  { title := some "Engineer", company := some "Acme", location := none,
    employmentType := none, experienceLevel := none,
    educationRequirements := none, domain := none, responsibilities := none,
    mustHaveSkills := some ["React"], niceToHaveSkills := none,
    technologies := none, summary := none }

/-- Sample match-analysis object, as parsed from a model response. -/
def baseRawSample : BaseAnalysisObj :=
  { matchScore := some 87, matchedSkills := some ["React"],
    missingSkills := some [], suggestions := none, sampleBullets := none,
    summary := some "Good fit" }

/-- Sample tailored-resume object, as parsed from a model response. -/
def tailoredRawSample : TailoredResumeObj :=
  { tailoredSummary := some "Tailored summary", tailoredSkills := some ["React"],
    tailoredExperience := none, tailoredProjects := none,
    coverLetterHighlights := none }

/-- Environment in which JD extraction and match analysis succeed but the
tailoring completion call fails. -/
def envTailorFail : AnalyzeEnv :=
  { jdChat := .ok "jd-response"
    jdParse := fun _ => .ok jdRawSample
    metaChat := .ok "meta-response"
    metaParse := fun _ => .error "parse error"
    matchChat := .ok "match-response"
    matchParse := fun _ => .ok baseRawSample
    tailorChat := .error "OpenAI API call failed after 3 attempts: Request failed with status code 500"
    tailorParse := fun _ => .error "unused" }

/-- Witness for C6: with a failing tailoring sub-task, `analyze` still
succeeds and returns the match-analysis fields together with the
placeholder tailored resume. -/
theorem analyze_mandatory_vs_best_effort_witness :
    analyze envTailorFail none = .ok
      { matchScore := (normalizeBaseAnalysis baseRawSample).matchScore
        matchedSkills := (normalizeBaseAnalysis baseRawSample).matchedSkills
        missingSkills := (normalizeBaseAnalysis baseRawSample).missingSkills
        suggestions := (normalizeBaseAnalysis baseRawSample).suggestions
        sampleBullets := (normalizeBaseAnalysis baseRawSample).sampleBullets
        summary := (normalizeBaseAnalysis baseRawSample).summary
        structuredJD := normalizeStructuredJD jdRawSample
        tailoredResume := emptyTailoredResume
        jobMetadata := none } :=
  (analyze_mandatory_vs_best_effort envTailorFail none).2.2
    (normalizeStructuredJD jdRawSample) (normalizeBaseAnalysis baseRawSample)
    ("Failed to generate tailored resume: " ++
      "OpenAI API call failed after 3 attempts: Request failed with status code 500")
    rfl rfl rfl

/-- C7 (amended): when a non-blank metadata source is supplied and the
metadata completion call fails while JD extraction, match analysis and
tailoring succeed, `analyze` still succeeds — but `jobMetadata` is **not**
absent: `parseJobMetadata` swallows the failure and the result carries
`some emptyJobMetadata` (the all-empty metadata object), alongside the
populated match-analysis fields, structured JD and tailored resume. -/
theorem analyze_metadata_failure_all_empty (env : AnalyzeEnv) (html m : String)
    (j : StructuredJDObj) (b : BaseAnalysisObj) (t : TailoredResumeObj)
    (hhtml : 0 < (jsTrimString html).length)
    (hmeta : env.metaChat = .error m)
    (hjd : preProcessJD env.jdChat env.jdParse = .ok j)
    (hmatch : callOpenAI env.matchChat env.matchParse = .ok b)
    (htail : generateTailoredResume env.tailorChat env.tailorParse = .ok t) :
    analyze env (some html) = .ok
      { matchScore := b.matchScore
        matchedSkills := b.matchedSkills
        missingSkills := b.missingSkills
        suggestions := b.suggestions
        sampleBullets := b.sampleBullets
        summary := b.summary
        structuredJD := j
        tailoredResume := t
        jobMetadata := some emptyJobMetadata } := by
  rw [analyze_jd_ok env (some html) j hjd,
    analyzeAfterJD_match_ok env (some html) j b hmatch,
    analyzeAssemble_tailor_ok env (assembleAnalysis env (some html) j b) t htail]
  unfold assembleAnalysis
  rw [analyzeParsedMetadata_meta_error env html m hhtml hmeta]

/-- Environment in which the metadata completion call fails with a
simulated network error while every other sub-task succeeds. -/
def envMetaFail : AnalyzeEnv :=
  { jdChat := .ok "jd-response"
    jdParse := fun _ => .ok jdRawSample
    metaChat := .error "Network Error"
    metaParse := fun _ => .error "unused"
    matchChat := .ok "match-response"
    matchParse := fun _ => .ok baseRawSample
    tailorChat := .ok "tailor-response"
    tailorParse := fun _ => .ok tailoredRawSample }

/-- C7 counterexample: with a failing metadata source and a succeeding
JD/match/tailor path, `jobMetadata` in the final result is **present**
(the all-empty metadata object), not undefined/absent as claimed, while
the other fields are populated. -/
theorem analyze_metadata_failure_counterexample :
    analyze envMetaFail (some "<div>Senior Engineer at Acme</div>") = .ok
      { matchScore := (normalizeBaseAnalysis baseRawSample).matchScore
        matchedSkills := (normalizeBaseAnalysis baseRawSample).matchedSkills
        missingSkills := (normalizeBaseAnalysis baseRawSample).missingSkills
        suggestions := (normalizeBaseAnalysis baseRawSample).suggestions
        sampleBullets := (normalizeBaseAnalysis baseRawSample).sampleBullets
        summary := (normalizeBaseAnalysis baseRawSample).summary
        structuredJD := normalizeStructuredJD jdRawSample
        tailoredResume := normalizeTailoredResume tailoredRawSample
        jobMetadata := some emptyJobMetadata } ∧
    (some emptyJobMetadata : Option JobMetaDataResponse) ≠ none ∧
    (normalizeBaseAnalysis baseRawSample).matchScore = some (clampScore (some 87)) := by
  refine ⟨?_, by decide, rfl⟩
  rw [analyze_jd_ok envMetaFail (some "<div>Senior Engineer at Acme</div>")
      (normalizeStructuredJD jdRawSample) rfl,
    analyzeAfterJD_match_ok envMetaFail (some "<div>Senior Engineer at Acme</div>")
      (normalizeStructuredJD jdRawSample) (normalizeBaseAnalysis baseRawSample) rfl,
    analyzeAssemble_tailor_ok envMetaFail
      (assembleAnalysis envMetaFail (some "<div>Senior Engineer at Acme</div>")
        (normalizeStructuredJD jdRawSample) (normalizeBaseAnalysis baseRawSample))
      (normalizeTailoredResume tailoredRawSample) rfl]
  unfold assembleAnalysis
  rw [analyzeParsedMetadata_meta_error envMetaFail "<div>Senior Engineer at Acme</div>"
    "Network Error" (by decide) rfl]

/-- Witness for C7 (amended) at the concrete failing-metadata environment. -/
theorem analyze_metadata_failure_all_empty_witness :
    analyze envMetaFail (some "<div>x</div>") = .ok
      { matchScore := (normalizeBaseAnalysis baseRawSample).matchScore
        matchedSkills := (normalizeBaseAnalysis baseRawSample).matchedSkills
        missingSkills := (normalizeBaseAnalysis baseRawSample).missingSkills
        suggestions := (normalizeBaseAnalysis baseRawSample).suggestions
        sampleBullets := (normalizeBaseAnalysis baseRawSample).sampleBullets
        summary := (normalizeBaseAnalysis baseRawSample).summary
        structuredJD := normalizeStructuredJD jdRawSample
        tailoredResume := normalizeTailoredResume tailoredRawSample
        jobMetadata := some emptyJobMetadata } :=
  analyze_metadata_failure_all_empty envMetaFail "<div>x</div>" "Network Error"
    (normalizeStructuredJD jdRawSample) (normalizeBaseAnalysis baseRawSample)
    (normalizeTailoredResume tailoredRawSample)
    (by decide) rfl rfl rfl rfl

/-!
## Raw-text analyze entry point

`src/controllers/analyze.controller.ts` accepts `{jd, resume}` as raw
strings, validates and sanitizes them, and calls an `analyze(jd, resume)`
service variant.  That service module is not part of the sources under
`src/` (only this caller is), so the variant itself is modelled from the
spec.  Sub-task invocations are made observable through an explicit log.
-/

/-- The five model-backed sub-tasks of the service layer. -/
inductive SubTask where
  | jdPreprocess
  | resumePreprocess
  | metadataParse
  | matchAnalysis
  | tailoredResumeGeneration
deriving DecidableEq

/-- Modelled from the spec: the raw-text `analyze(jd, resume)` service
variant imported by `src/controllers/analyze.controller.ts` is missing
from the sources (only its caller is present).  Per the spec it performs
only the match-analysis sub-task against the two raw texts, with no JD
preprocessing, no resume preprocessing, no metadata step and no tailoring;
`jd` and `resume` feed only the prompt.  The invoked sub-tasks are
returned alongside the result. -/
def analyzeRawText (jd resume : String) (matchChat : Except String String)
    (matchParse : String → Except String BaseAnalysisObj) :
    Except String BaseAnalysisObj × List SubTask :=
  (callOpenAI matchChat matchParse, [SubTask.matchAnalysis])

/-- Outcome of one request to the raw-text analyze route. -/
inductive HandlerOutcome where
  | badRequest (message : String)
  | ok (body : BaseAnalysisObj)
  | serverError (message : String)
deriving DecidableEq

/-- Forwarding of the service result by the controller: a success is sent
as the JSON body, a thrown error is re-thrown to the error middleware. -/
def handlerRespond : Except String BaseAnalysisObj × List SubTask →
    HandlerOutcome × List SubTask
  | (.ok body, tasks) => (.ok body, tasks)
  | (.error e, tasks) => (.serverError e, tasks)

/-- `analyzeHandler` from `src/controllers/analyze.controller.ts`: rejects
a missing/empty/non-string `jd` or `resume` with a 400 before any model
call, otherwise sanitizes both texts and calls the raw-text `analyze`. -/
def analyzeHandler (pii : String → String) :
    Option String → Option String → Except String String →
    (String → Except String BaseAnalysisObj) → HandlerOutcome × List SubTask
  | none, _, _, _ => (.badRequest "Job description is required", [])
  | some jdText, resume, matchChat, matchParse =>
    if jdText = "" then (.badRequest "Job description is required", [])
    else
      match resume with
      | none => (.badRequest "Resume is required", [])
      | some resumeText =>
        if resumeText = "" then (.badRequest "Resume is required", [])
        else
          handlerRespond (analyzeRawText (sanitizeText pii (some jdText))
            (sanitizeText pii (some resumeText)) matchChat matchParse)

/-- C8: for valid raw inputs, the raw-text analyze entry point invokes
exactly the match-analysis sub-task — no JD preprocessing, no resume
preprocessing, no tailoring — and its body is the match analysis of the
two raw texts. -/
theorem analyzeHandler_match_only (pii : String → String)
    (jdText resumeText : String) (matchChat : Except String String)
    (matchParse : String → Except String BaseAnalysisObj)
    (hjd : jdText ≠ "") (hres : resumeText ≠ "") :
    (analyzeHandler pii (some jdText) (some resumeText) matchChat matchParse).2 =
      [SubTask.matchAnalysis] ∧
    SubTask.jdPreprocess ∉
      (analyzeHandler pii (some jdText) (some resumeText) matchChat matchParse).2 ∧
    SubTask.resumePreprocess ∉
      (analyzeHandler pii (some jdText) (some resumeText) matchChat matchParse).2 ∧
    SubTask.tailoredResumeGeneration ∉
      (analyzeHandler pii (some jdText) (some resumeText) matchChat matchParse).2 ∧
    (∀ b, callOpenAI matchChat matchParse = .ok b →
      (analyzeHandler pii (some jdText) (some resumeText) matchChat matchParse).1 =
        .ok b) ∧
    (∀ e, callOpenAI matchChat matchParse = .error e →
      (analyzeHandler pii (some jdText) (some resumeText) matchChat matchParse).1 =
        .serverError e) := by
  have h2 : (analyzeHandler pii (some jdText) (some resumeText) matchChat matchParse).2 =
      [SubTask.matchAnalysis] := by
    rcases hcall : callOpenAI matchChat matchParse with e | b <;>
      simp [analyzeHandler, analyzeRawText, handlerRespond, hjd, hres, hcall]
  refine ⟨h2, ?_, ?_, ?_, ?_, ?_⟩
  · rw [h2]; decide
  · rw [h2]; decide
  · rw [h2]; decide
  · intro b hb
    simp [analyzeHandler, analyzeRawText, handlerRespond, hjd, hres, hb]
  · intro e he
    simp [analyzeHandler, analyzeRawText, handlerRespond, hjd, hres, he]

/-- Witness for C8 at concrete raw texts and a succeeding match
analysis. -/
theorem analyzeHandler_match_only_witness :
    (analyzeHandler id (some "We are hiring a React engineer")
        (some "Jane, React developer") (.ok "match-response")
        (fun _ => .ok baseRawSample)).2 = [SubTask.matchAnalysis] ∧
    SubTask.jdPreprocess ∉
      (analyzeHandler id (some "We are hiring a React engineer")
        (some "Jane, React developer") (.ok "match-response")
        (fun _ => .ok baseRawSample)).2 ∧
    (analyzeHandler id (some "We are hiring a React engineer")
        (some "Jane, React developer") (.ok "match-response")
        (fun _ => .ok baseRawSample)).1 =
      .ok (normalizeBaseAnalysis baseRawSample) := by
  have h := analyzeHandler_match_only id "We are hiring a React engineer"
    "Jane, React developer" (.ok "match-response")
    (fun _ => .ok baseRawSample) (by decide) (by decide)
  exact ⟨h.1, h.2.1, h.2.2.2.2.1 (normalizeBaseAnalysis baseRawSample) rfl⟩

end ApiClient
